import Mathlib

/-!
Verification of the page-assembly subsystem of `newline-iwb-converter`.

The embedding models, from the source:
  * `iwb2pdf.combine_svgs_to_pdf` (the in-process ReportLab engine),
  * `pdf_engines/inkscape_engine.py` (`InkscapeEngine.combine_svgs_to_pdf`,
    the external-tool engine),
  * the shared page-file enumeration `sorted(Path(svg_dir).glob("page_*.svg"),
    key=lambda x: int(x.stem.split("_")[1]))` used verbatim by both engines.

Filesystem directories are modelled as lists of file names; SVG parsing
(`svg_to_pdf_page`, which returns a drawing or `None`) is an oracle
`String → Option Drawing`; the external converter child process is an oracle
returning an exit outcome.  Widths and heights are rationals (the Python
code computes with exact small decimals; `/` is true division).
-/

namespace IWB

/-- A ReportLab drawing, as returned by `svg2rlg`: only its intrinsic
`width`/`height` are consumed by the assembly code. -/
structure Drawing where
  width : ℚ
  height : ℚ
deriving DecidableEq, Repr

/-- The fixed padding constant: `padding = 10` in `combine_svgs_to_pdf`. -/
def padding : ℚ := 10

/-- Splitting a character list at every occurrence of the separator `c`,
with Python's `str.split(sep)` semantics for a one-character separator:
`"page_1"` splits at `'_'` into `["page", "1"]`, the empty string into
`[""]`, and separators at the ends yield empty segments. -/
def splitOnChar (c : Char) : List Char → List (List Char)
  | [] => [[]]
  | x :: xs =>
    let r := splitOnChar c xs
    if x = c then [] :: r
    else
      match r with
      | [] => [[x]]
      | h :: t => (x :: h) :: t

def startsWithChars : List Char → List Char → Bool
  | _, [] => true
  | [], _ :: _ => false
  | x :: xs, y :: ys => x = y && startsWithChars xs ys

def endsWithChars (s suffix : List Char) : Bool :=
  startsWithChars s.reverse suffix.reverse

def digitVal (c : Char) : Option Nat :=
  if '0' ≤ c ∧ c ≤ '9' then some (c.toNat - '0'.toNat) else none

/-- Model of Python's `int()` on the decimal digit strings produced by the
filename convention: `none` (a raised `ValueError`) on the empty string or
on any non-digit character, otherwise the denoted non-negative integer. -/
def charsToNat (s : List Char) : Option Nat :=
  if s.isEmpty then none
  else s.foldl (fun acc c => acc.bind (fun n => (digitVal c).map (fun d => n * 10 + d)))
    (some 0)

/-- Model of `pathlib.Path.stem`: the file name with its last extension
removed (`Path("page_1.svg").stem = "page_1"`). -/
def stem (s : String) : String :=
  let parts := splitOnChar '.' s.data
  if parts.length ≤ 1 then s else String.mk (List.intercalate ['.'] parts.dropLast)

/-- Model of the glob pattern `page_*.svg`: the name starts with `page_`
and ends with `.svg` (`*` matches any, possibly empty, character run; a
name shorter than 9 characters cannot satisfy both, so no extra length
test is needed). -/
def matchesGlob (name : String) : Bool :=
  startsWithChars name.data "page_".data && endsWithChars name.data ".svg".data

/-- Model of the sort key `int(x.stem.split("_")[1])`.  `none` models a
raised exception: `IndexError` when the stem has no `_` (impossible for a
glob match), or `ValueError` when `int()` rejects the segment. -/
def sortKey (name : String) : Option Nat :=
  match splitOnChar '_' (stem name).data with
  | _ :: seg :: _ => charsToNat seg
  | _ => none

/-- Python's `sorted` evaluates the key of every element before comparing;
`decorate` performs that key-extraction pass, `none` propagating a raised
`ValueError`/`IndexError`. -/
def decorate : List String → Option (List (Nat × String))
  | [] => some []
  | n :: rest =>
    match sortKey n with
    | none => none
    | some k => (decorate rest).map (fun l => (k, n) :: l)

instance : DecidableRel (fun (a b : Nat × String) => a.1 ≤ b.1) :=
  fun a b => Nat.decLe a.1 b.1

/-- Model of
`sorted(Path(svg_dir).glob("page_*.svg"), key=lambda x: int(x.stem.split("_")[1]))`,
shared verbatim by both engines.  The input list is the directory's file
names in arbitrary (filesystem) order; the result pairs each matching name
with its numeric index, sorted by index ascending with a stable sort
(Python's `sorted` is stable; `insertionSort` is too).  `none` models an
unhandled exception raised while sorting. -/
def enumeratePages (names : List String) : Option (List (Nat × String)) :=
  match decorate (names.filter matchesGlob) with
  | none => none
  | some keyed => some (keyed.insertionSort (fun a b => a.1 ≤ b.1))

/-- One emitted PDF page of the in-process engine: the `setPageSize`
dimensions and the `translate` offset applied before `renderPDF.draw`,
together with the numeric index of the source file. -/
structure Page where
  index : Nat
  page_width : ℚ
  page_height : ℚ
  x_offset : ℚ
  y_offset : ℚ
deriving DecidableEq, Repr

/-- Outcome of `iwb2pdf.combine_svgs_to_pdf`:
  * `exn` — an unhandled exception while sorting the page files (before
    any page is processed and before the canvas exists): no output file;
  * `fatal` — `sys.exit(1)` on the `if not svg_files` check, raised before
    the canvas is created: no output file;
  * `output pages` — `pdf_canvas.save()` ran: a PDF file is written at the
    output path containing exactly the listed drawn pages, in order
    (ReportLab writes a file even when no page was drawn). -/
inductive RunResult where
  | exn : RunResult
  | fatal : RunResult
  | output : List Page → RunResult
deriving DecidableEq, Repr

/-- The drawings that survive `svg_to_pdf_page`: the first loop builds the
`drawings` list (with `None` placeholders), the second loop `continue`s past
the `None` entries; what remains is each successfully parsed file's index
paired with its drawing, in order. -/
def successes (svg_files : List (Nat × String)) (parse : String → Option Drawing) :
    List (Nat × Drawing) :=
  (svg_files.map (fun f => (f, parse f.2))).filterMap
    (fun p => p.2.map (fun d => (p.1.1, d)))

/-- The body of `combine_svgs_to_pdf` after file enumeration: the empty
check, the parse loop (tracking `max_width`/`max_height` only when
`uniform_size`), and the page-emission loop with its two sizing branches. -/
def processPages (svg_files : List (Nat × String)) (parse : String → Option Drawing)
    (uniform_size : Bool) : RunResult :=
  if svg_files.isEmpty then RunResult.fatal
  else
    let succ := successes svg_files parse
    let max_width : ℚ := if uniform_size then (succ.map (fun q => q.2.width)).foldl max 0 else 0
    let max_height : ℚ := if uniform_size then (succ.map (fun q => q.2.height)).foldl max 0 else 0
    let uniform_page_width := max_width + padding * 2
    let uniform_page_height := max_height + padding * 2
    RunResult.output (succ.map (fun q =>
      if uniform_size then
        { index := q.1
          page_width := uniform_page_width
          page_height := uniform_page_height
          x_offset := (uniform_page_width - q.2.width) / 2
          y_offset := (uniform_page_height - q.2.height) / 2 }
      else
        { index := q.1
          page_width := q.2.width + padding * 2
          page_height := q.2.height + padding * 2
          x_offset := padding
          y_offset := padding }))

/-- `iwb2pdf.combine_svgs_to_pdf`: enumerate `page_*.svg`, sort by numeric
index (an exception there kills the run), exit fatally when nothing
matched, otherwise parse and emit pages. -/
def combine_svgs_to_pdf (names : List String) (parse : String → Option Drawing)
    (uniform_size : Bool) : RunResult :=
  match enumeratePages names with
  | none => RunResult.exn
  | some svg_files => processPages svg_files parse uniform_size

/-- Outcome of one `subprocess.run(cmd, ..., timeout=60)` invocation of the
external converter, as the code distinguishes them:
  * `ok` — `returncode == 0`;
  * `nonzeroExit` — `returncode != 0`;
  * `timeout` — `subprocess.TimeoutExpired` after the 60-unit bound;
  * `invokeError` — any other exception while invoking. -/
inductive ConvResult where
  | ok : ConvResult
  | nonzeroExit : ConvResult
  | timeout : ConvResult
  | invokeError : ConvResult
deriving DecidableEq, Repr

/-- Outcome of `InkscapeEngine.combine_svgs_to_pdf`:
  * `exn` — unhandled exception while sorting the page files: no output;
  * `fatal` — `sys.exit(1)` (empty glob, or any per-page conversion
    failure): no output file exists at the output path;
  * `merged pages` — `PdfMerger` wrote the output containing exactly the
    pages with the listed indices, in order;
  * `firstOnly page` — PyPDF2 was missing: only the converted page with
    the listed index was copied to the output path, with a logged warning;
  * `noOutput` — PyPDF2 missing and no converted page existed: the call
    returns without writing anything (unreachable after a non-empty glob,
    kept to mirror the `if pdf_files:` guard). -/
inductive ExtResult where
  | exn : ExtResult
  | fatal : ExtResult
  | merged : List Nat → ExtResult
  | firstOnly : Nat → ExtResult
  | noOutput : ExtResult
deriving DecidableEq, Repr

/-- The per-page conversion loop of `InkscapeEngine.combine_svgs_to_pdf`:
pages are converted strictly in order, appending each scratch PDF's index
to `pdf_files` on success; the first non-`ok` outcome hits a
`sys.exit(1)` branch, modelled by `none` (later pages are never reached). -/
def convertAll : List (Nat × String) → ((Nat × String) → ConvResult) → Option (List Nat)
  | [], _ => some []
  | f :: rest, convert =>
    match convert f with
    | ConvResult.ok => (convertAll rest convert).map (fun l => f.1 :: l)
    | _ => none

/-- The command list built for one page:
`[inkscape_path, "--without-gui", str(svg_file), f"--export-filename=...", f"--export-type=pdf"]`.
It has no parameter other than the executable, the input file and the
scratch output file. -/
def inkscape_cmd (inkscape_path svg_file temp_pdf : String) : List String :=
  [inkscape_path, "--without-gui", svg_file,
    "--export-filename=" ++ temp_pdf, "--export-type=pdf"]

/-- The raw index segment `svg_file.stem.split('_')[1]` used to name the
scratch PDF `page_<segment>.pdf`. -/
def indexSegment (name : String) : String :=
  String.mk ((splitOnChar '_' (stem name).data).getD 1 [])

/-- The sequence of child-process command lines the external engine issues
for a directory, in order (`none` when enumeration raises).  The final
`_uniform_size` argument models the engine's `**kwargs`, documented in the
source as "Unused for Inkscape engine": no part of the body consumes it. -/
def inkscape_page_cmds (inkscape_path temp_dir : String) (names : List String)
    (_uniform_size : Bool) : Option (List (List String)) :=
  (enumeratePages names).map (fun files => files.map (fun f =>
    inkscape_cmd inkscape_path f.2 (temp_dir ++ "/page_" ++ indexSegment f.2 ++ ".pdf")))

/-- `InkscapeEngine.combine_svgs_to_pdf`: enumerate and sort the page
files, exit fatally when nothing matched, convert each page in order
(aborting the whole run on the first failure), then merge with `PdfMerger`
when PyPDF2 imports, else fall back to copying the first scratch PDF.
`convert` is the child-process oracle, `pypdf2_available` tells whether
`from PyPDF2 import PdfMerger` succeeds, and `_uniform_size` models the
unused `**kwargs`. -/
def inkscape_combine_svgs_to_pdf (names : List String)
    (convert : (Nat × String) → ConvResult) (pypdf2_available : Bool)
    (_uniform_size : Bool) : ExtResult :=
  match enumeratePages names with
  | none => ExtResult.exn
  | some svg_files =>
    if svg_files.isEmpty then ExtResult.fatal
    else
      match convertAll svg_files convert with
      | none => ExtResult.fatal
      | some pdf_files =>
        if pypdf2_available then ExtResult.merged pdf_files
        else
          match pdf_files with
          | [] => ExtResult.noOutput
          | p :: _ => ExtResult.firstOnly p

/-- The engine preference of the selection policy. -/
inductive EnginePreference where
  | forceOn : EnginePreference
  | forceOff : EnginePreference
  | auto : EnginePreference
deriving DecidableEq, Repr

/-- The two rendering-engine variants. -/
inductive Engine where
  | external : Engine
  | inProcess : Engine
deriving DecidableEq, Repr

/-- Modelled from the spec: the `EngineSelector.select` contract (the
selector itself is not among the sources under `src/`; only the two engine
classes are).  Spec: `ForceOn` instantiates the external engine and falls
back to the in-process engine, with a logged warning, when
`isAvailable()` is false; `ForceOff` always returns the in-process engine;
`Auto` returns the external engine iff it is available.  The function is
total: selection never raises. -/
def select (pref : EnginePreference) (external_available : Bool) : Engine :=
  match pref with
  | EnginePreference.forceOn =>
    if external_available then Engine.external else Engine.inProcess
  | EnginePreference.forceOff => Engine.inProcess
  | EnginePreference.auto =>
    if external_available then Engine.external else Engine.inProcess

/-- Concrete parse oracle for the spec's example scenario:
`page_1.svg` is 40×30, `page_2.svg` is 100×50. -/
def exampleParse : String → Option Drawing :=
  fun n =>
    if n = "page_1.svg" then some { width := 40, height := 30 }
    else if n = "page_2.svg" then some { width := 100, height := 50 }
    else none

/-- Concrete parse oracle in which only `page_1.svg` parses; `page_2.svg`
(and everything else) fails, as when `svg2rlg` raises. -/
def examplePartial : String → Option Drawing :=
  fun n => if n = "page_1.svg" then some { width := 40, height := 30 } else none

/-- Concrete parse oracle in which every page fails to parse. -/
def noParse : String → Option Drawing := fun _ => none

lemma le_foldl_max (l : List ℚ) (a : ℚ) : a ≤ l.foldl max a := by
  induction l generalizing a with
  | nil => exact le_refl a
  | cons b t ih => exact le_trans (le_max_left a b) (ih (max a b))

lemma mem_le_foldl_max (l : List ℚ) (a x : ℚ) (hx : x ∈ l) : x ≤ l.foldl max a := by
  induction l generalizing a with
  | nil => cases hx
  | cons b t ih =>
    rcases List.mem_cons.mp hx with h | h
    · subst h
      exact le_trans (le_max_right a x) (le_foldl_max t (max a x))
    · exact ih (max a b) h

lemma foldl_max_eq_init_or_mem (l : List ℚ) (a : ℚ) :
    l.foldl max a = a ∨ l.foldl max a ∈ l := by
  induction l generalizing a with
  | nil => exact Or.inl rfl
  | cons b t ih =>
    rcases ih (max a b) with h | h
    · rcases max_choice a b with hm | hm
      · exact Or.inl (by rw [List.foldl_cons, h, hm])
      · exact Or.inr (by rw [List.foldl_cons, h, hm]; exact List.mem_cons_self b t)
    · exact Or.inr (List.mem_cons_of_mem b h)

lemma successes_eq_filterMap (files : List (Nat × String)) (parse : String → Option Drawing) :
    successes files parse
      = files.filterMap (fun f => (parse f.2).map (fun d => (f.1, d))) := by
  rw [successes, List.filterMap_map]
  rfl

lemma successes_filter_isSome (files : List (Nat × String)) (parse : String → Option Drawing) :
    successes (files.filter fun f => (parse f.2).isSome) parse = successes files parse := by
  rw [successes_eq_filterMap, successes_eq_filterMap]
  induction files with
  | nil => rfl
  | cons f t ih =>
    cases h : parse f.2 with
    | none => simp [List.filter_cons, h, ih]
    | some d => simp [List.filter_cons, h, List.filterMap_cons, ih]

lemma length_successes (files : List (Nat × String)) (parse : String → Option Drawing) :
    (successes files parse).length = (files.filter fun f => (parse f.2).isSome).length := by
  rw [successes_eq_filterMap]
  induction files with
  | nil => rfl
  | cons f t ih =>
    cases h : parse f.2 with
    | none => simp [List.filter_cons, h, List.filterMap_cons, ih]
    | some d => simp [List.filter_cons, h, List.filterMap_cons, ih]

lemma successes_map_fst_sublist (files : List (Nat × String)) (parse : String → Option Drawing) :
    List.Sublist ((successes files parse).map Prod.fst) (files.map Prod.fst) := by
  rw [successes_eq_filterMap]
  induction files with
  | nil => simp
  | cons f t ih =>
    cases h : parse f.2 with
    | none =>
      simp only [List.filterMap_cons, h, Option.map_none', List.map_cons]
      exact ih.cons f.1
    | some d =>
      simp only [List.filterMap_cons, h, Option.map_some', List.map_cons]
      exact ih.cons₂ f.1

lemma decorate_length (l : List String) (keyed : List (Nat × String))
    (h : decorate l = some keyed) : keyed.length = l.length := by
  induction l generalizing keyed with
  | nil => simp [decorate] at h; simp [← h]
  | cons n t ih =>
    rw [decorate] at h
    cases hk : sortKey n with
    | none => rw [hk] at h; cases h
    | some k =>
      rw [hk] at h
      cases hd : decorate t with
      | none => rw [hd] at h; cases h
      | some rest =>
        rw [hd] at h
        simp only [Option.map_some', Option.some.injEq] at h
        subst h
        simp [ih rest hd]

lemma decorate_none_of_mem (l : List String) (n : String) (hn : n ∈ l)
    (hk : sortKey n = none) : decorate l = none := by
  induction l with
  | nil => cases hn
  | cons m t ih =>
    rw [decorate]
    rcases List.mem_cons.mp hn with h | h
    · subst h; rw [hk]
    · cases hm : sortKey m with
      | none => rfl
      | some k => rw [ih h]; rfl

lemma enumeratePages_sorted (names : List String) (files : List (Nat × String))
    (h : enumeratePages names = some files) : (files.map Prod.fst).Sorted (· ≤ ·) := by
  rw [enumeratePages] at h
  cases hd : decorate (names.filter matchesGlob) with
  | none => rw [hd] at h; cases h
  | some keyed =>
    rw [hd] at h
    simp only [Option.some.injEq] at h
    subst h
    haveI : IsTotal (Nat × String) (fun a b => a.1 ≤ b.1) :=
      ⟨fun a b => Nat.le_total a.1 b.1⟩
    haveI : IsTrans (Nat × String) (fun a b => a.1 ≤ b.1) :=
      ⟨fun _ _ _ hab hbc => Nat.le_trans hab hbc⟩
    have hs := List.sorted_insertionSort (fun (a b : Nat × String) => a.1 ≤ b.1) keyed
    rw [List.Sorted, List.pairwise_map]
    exact hs

lemma enumeratePages_length (names : List String) (files : List (Nat × String))
    (h : enumeratePages names = some files) :
    files.length = (names.filter matchesGlob).length := by
  rw [enumeratePages] at h
  cases hd : decorate (names.filter matchesGlob) with
  | none => rw [hd] at h; cases h
  | some keyed =>
    rw [hd] at h
    simp only [Option.some.injEq] at h
    subst h
    rw [(List.perm_insertionSort (fun (a b : Nat × String) => a.1 ≤ b.1) keyed).length_eq]
    exact decorate_length _ _ hd

lemma combine_eq_processPages (names : List String) (parse : String → Option Drawing)
    (u : Bool) (files : List (Nat × String)) (henum : enumeratePages names = some files) :
    combine_svgs_to_pdf names parse u = processPages files parse u := by
  unfold combine_svgs_to_pdf
  rw [henum]

lemma processPages_independent (files : List (Nat × String)) (parse : String → Option Drawing)
    (h : files ≠ []) :
    processPages files parse false =
      RunResult.output ((successes files parse).map (fun q =>
        { index := q.1
          page_width := q.2.width + padding * 2
          page_height := q.2.height + padding * 2
          x_offset := padding
          y_offset := padding })) := by
  rw [processPages, if_neg (by simp [h])]
  rfl

lemma processPages_uniform (files : List (Nat × String)) (parse : String → Option Drawing)
    (h : files ≠ []) :
    processPages files parse true =
      RunResult.output ((successes files parse).map (fun q =>
        { index := q.1
          page_width :=
            ((successes files parse).map (fun q => q.2.width)).foldl max 0 + padding * 2
          page_height :=
            ((successes files parse).map (fun q => q.2.height)).foldl max 0 + padding * 2
          x_offset :=
            (((successes files parse).map (fun q => q.2.width)).foldl max 0 + padding * 2
              - q.2.width) / 2
          y_offset :=
            (((successes files parse).map (fun q => q.2.height)).foldl max 0 + padding * 2
              - q.2.height) / 2 })) := by
  rw [processPages, if_neg (by simp [h])]
  rfl

lemma processPages_output (files : List (Nat × String)) (parse : String → Option Drawing)
    (u : Bool) (h : files ≠ []) :
    ∃ pages : List Page,
      processPages files parse u = RunResult.output pages ∧
      pages.map (fun pg => pg.index) = (successes files parse).map Prod.fst ∧
      pages.length = (successes files parse).length := by
  cases u with
  | false =>
    refine ⟨_, processPages_independent files parse h, ?_, ?_⟩ <;> simp [List.map_map]
  | true =>
    refine ⟨_, processPages_uniform files parse h, ?_, ?_⟩ <;> simp [List.map_map]

lemma successes_eq_nil (files : List (Nat × String)) (parse : String → Option Drawing)
    (h : ∀ f ∈ files, parse f.2 = none) : successes files parse = [] := by
  rw [successes_eq_filterMap]
  induction files with
  | nil => rfl
  | cons f t ih =>
    rw [List.filterMap_cons, h f (List.mem_cons_self f t)]
    exact ih (fun g hg => h g (List.mem_cons_of_mem f hg))

lemma length_filter_isSome_add (files : List (Nat × String))
    (parse : String → Option Drawing) :
    (files.filter fun f => (parse f.2).isSome).length
      + (files.filter fun f => (parse f.2).isNone).length = files.length := by
  induction files with
  | nil => rfl
  | cons f t ih =>
    rw [List.filter_cons, List.filter_cons]
    cases h : parse f.2 with
    | none =>
      simp only [Option.isSome_none, Option.isNone_none, Bool.false_eq_true, if_false, if_true,
        List.length_cons]
      rw [Nat.add_succ, ih]
    | some d =>
      simp only [Option.isSome_some, Option.isNone_some, Bool.false_eq_true, if_false, if_true,
        List.length_cons]
      rw [Nat.succ_add, ih]

lemma convertAll_ok (files : List (Nat × String)) (convert : (Nat × String) → ConvResult)
    (h : ∀ f ∈ files, convert f = ConvResult.ok) :
    convertAll files convert = some (files.map Prod.fst) := by
  induction files with
  | nil => rfl
  | cons f t ih =>
    rw [convertAll, h f (List.mem_cons_self f t), ih (fun g hg => h g (List.mem_cons_of_mem f hg))]
    rfl

lemma convertAll_abort (pre : List (Nat × String)) (f : Nat × String)
    (post : List (Nat × String)) (convert : (Nat × String) → ConvResult)
    (hpre : ∀ g ∈ pre, convert g = ConvResult.ok) (hf : convert f ≠ ConvResult.ok) :
    convertAll (pre ++ f :: post) convert = none := by
  induction pre with
  | nil =>
    rw [List.nil_append, convertAll]
    cases hc : convert f with
    | ok => exact absurd hc hf
    | nonzeroExit => rfl
    | timeout => rfl
    | invokeError => rfl
  | cons g t ih =>
    rw [List.cons_append, convertAll, hpre g (List.mem_cons_self g t),
      ih (fun g' hg' => hpre g' (List.mem_cons_of_mem g hg'))]
    rfl

/-- C1: in uniform mode, for every non-empty sequence of successfully
parsed drawings there are maxima `mw`, `mh` over all the drawings' widths
and heights (attained by some drawing, and bounding every drawing) such
that every output page has size `(mw + 2*padding, mh + 2*padding)` with
`padding = 10` and content offset
`((pageWidth - width)/2, (pageHeight - height)/2)`; in particular, for
drawings 40×30 and 100×50 both pages are 120×70 with offsets (40, 20)
and (10, 10). -/
theorem C1_uniform_mode (names : List String) (parse : String → Option Drawing)
    (files : List (Nat × String)) (henum : enumeratePages names = some files)
    (hne : successes files parse ≠ [])
    (hpos : ∀ q ∈ successes files parse, 0 ≤ q.2.width ∧ 0 ≤ q.2.height) :
    ∃ mw mh : ℚ,
      (∀ q ∈ successes files parse, q.2.width ≤ mw ∧ q.2.height ≤ mh) ∧
      (∃ q ∈ successes files parse, q.2.width = mw) ∧
      (∃ q ∈ successes files parse, q.2.height = mh) ∧
      combine_svgs_to_pdf names parse true =
        RunResult.output ((successes files parse).map (fun q =>
          { index := q.1
            page_width := mw + padding * 2
            page_height := mh + padding * 2
            x_offset := (mw + padding * 2 - q.2.width) / 2
            y_offset := (mh + padding * 2 - q.2.height) / 2 })) ∧
      combine_svgs_to_pdf ["page_1.svg", "page_2.svg"] exampleParse true =
        RunResult.output
          [{ index := 1, page_width := 120, page_height := 70, x_offset := 40, y_offset := 20 },
           { index := 2, page_width := 120, page_height := 70, x_offset := 10, y_offset := 10 }] := by
  refine ⟨((successes files parse).map (fun q => q.2.width)).foldl max 0,
    ((successes files parse).map (fun q => q.2.height)).foldl max 0, ?_, ?_, ?_, ?_, ?_⟩
  · intro q hq
    exact ⟨mem_le_foldl_max _ 0 _ (List.mem_map_of_mem _ hq),
      mem_le_foldl_max _ 0 _ (List.mem_map_of_mem _ hq)⟩
  · rcases foldl_max_eq_init_or_mem ((successes files parse).map (fun q => q.2.width)) 0
      with h0 | hm
    · obtain ⟨q0, hq0⟩ := List.exists_mem_of_ne_nil _ hne
      refine ⟨q0, hq0, ?_⟩
      have hle := mem_le_foldl_max ((successes files parse).map (fun q => q.2.width)) 0 _
        (List.mem_map_of_mem _ hq0)
      rw [h0] at hle ⊢
      exact le_antisymm hle (hpos q0 hq0).1
    · obtain ⟨q, hq, heq⟩ := List.mem_map.mp hm
      exact ⟨q, hq, heq⟩
  · rcases foldl_max_eq_init_or_mem ((successes files parse).map (fun q => q.2.height)) 0
      with h0 | hm
    · obtain ⟨q0, hq0⟩ := List.exists_mem_of_ne_nil _ hne
      refine ⟨q0, hq0, ?_⟩
      have hle := mem_le_foldl_max ((successes files parse).map (fun q => q.2.height)) 0 _
        (List.mem_map_of_mem _ hq0)
      rw [h0] at hle ⊢
      exact le_antisymm hle (hpos q0 hq0).2
    · obtain ⟨q, hq, heq⟩ := List.mem_map.mp hm
      exact ⟨q, hq, heq⟩
  · have hf : files ≠ [] := by
      intro hf
      exact hne (by rw [hf]; rfl)
    unfold combine_svgs_to_pdf
    rw [henum]
    exact processPages_uniform files parse hf
  · have h : enumeratePages ["page_1.svg", "page_2.svg"] =
        some [(1, "page_1.svg"), (2, "page_2.svg")] := by decide
    have hs : ¬ ("page_2.svg" = "page_1.svg") := by decide
    simp only [combine_svgs_to_pdf, h]
    norm_num [processPages, successes, exampleParse, padding, hs,
      List.filterMap_cons, List.foldl_cons, max_def, Page.mk.injEq]

/-- Witness for C1 at the spec's example scenario: `page_1.svg` 40×30 and
`page_2.svg` 100×50 under uniform mode. -/
theorem C1_uniform_mode_witness :
    ∃ mw mh : ℚ,
      (∀ q ∈ successes [(1, "page_1.svg"), (2, "page_2.svg")] exampleParse,
        q.2.width ≤ mw ∧ q.2.height ≤ mh) ∧
      (∃ q ∈ successes [(1, "page_1.svg"), (2, "page_2.svg")] exampleParse, q.2.width = mw) ∧
      (∃ q ∈ successes [(1, "page_1.svg"), (2, "page_2.svg")] exampleParse, q.2.height = mh) ∧
      combine_svgs_to_pdf ["page_1.svg", "page_2.svg"] exampleParse true =
        RunResult.output
          ((successes [(1, "page_1.svg"), (2, "page_2.svg")] exampleParse).map (fun q =>
            { index := q.1
              page_width := mw + padding * 2
              page_height := mh + padding * 2
              x_offset := (mw + padding * 2 - q.2.width) / 2
              y_offset := (mh + padding * 2 - q.2.height) / 2 })) ∧
      combine_svgs_to_pdf ["page_1.svg", "page_2.svg"] exampleParse true =
        RunResult.output
          [{ index := 1, page_width := 120, page_height := 70, x_offset := 40, y_offset := 20 },
           { index := 2, page_width := 120, page_height := 70, x_offset := 10, y_offset := 10 }] :=
  C1_uniform_mode ["page_1.svg", "page_2.svg"] exampleParse
    [(1, "page_1.svg"), (2, "page_2.svg")] (by decide) (by decide) (by decide)

/-- C2: in independent mode every output page is sized to its own drawing
plus `2*padding` on each axis, with content offset exactly
`(padding, padding)`, independently of the other pages' dimensions. -/
theorem C2_independent_mode (names : List String) (parse : String → Option Drawing)
    (files : List (Nat × String)) (henum : enumeratePages names = some files)
    (hne : files ≠ []) :
    combine_svgs_to_pdf names parse false =
      RunResult.output ((successes files parse).map (fun q =>
        { index := q.1
          page_width := q.2.width + padding * 2
          page_height := q.2.height + padding * 2
          x_offset := padding
          y_offset := padding })) := by
  unfold combine_svgs_to_pdf
  rw [henum]
  exact processPages_independent files parse hne

/-- Witness for C2 at the spec's example scenario under independent mode. -/
theorem C2_independent_mode_witness :
    combine_svgs_to_pdf ["page_2.svg", "page_1.svg"] exampleParse false =
      RunResult.output
        ((successes [(1, "page_1.svg"), (2, "page_2.svg")] exampleParse).map (fun q =>
          { index := q.1
            page_width := q.2.width + padding * 2
            page_height := q.2.height + padding * 2
            x_offset := padding
            y_offset := padding })) :=
  C2_independent_mode ["page_2.svg", "page_1.svg"] exampleParse
    [(1, "page_1.svg"), (2, "page_2.svg")] (by decide) (by decide)

/-- C3 counterexample: a directory whose single matching page fails to
parse does NOT terminate fatally — the canvas is still created and saved,
so a PDF file (with no drawn pages) is written at the output path. -/
theorem C3_counterexample :
    combine_svgs_to_pdf ["page_1.svg"] noParse false = RunResult.output [] ∧
    RunResult.output ([] : List Page) ≠ RunResult.fatal ∧
    RunResult.output ([] : List Page) ≠ RunResult.exn :=
  ⟨rfl, by simp, by simp⟩

/-- C3 amended: if the directory contains no file matching the page-file
naming convention, the run terminates with a fatal error (`sys.exit(1)`)
and no output file is created; but if matching pages exist and every one
of them fails to parse, the run does not terminate fatally — it saves an
output PDF containing no drawn pages at the output path. -/
theorem C3_empty_and_allfail (names : List String) (parse : String → Option Drawing)
    (u : Bool) (files : List (Nat × String)) (henum : enumeratePages names = some files) :
    (files = [] ↔ names.filter matchesGlob = []) ∧
    (files = [] → combine_svgs_to_pdf names parse u = RunResult.fatal) ∧
    (files ≠ [] → (∀ f ∈ files, parse f.2 = none) →
      combine_svgs_to_pdf names parse u = RunResult.output []) := by
  refine ⟨?_, ?_, ?_⟩
  · have hl := enumeratePages_length names files henum
    constructor
    · intro h
      rw [h] at hl
      exact List.length_eq_zero.mp hl.symm
    · intro h
      rw [h] at hl
      exact List.length_eq_zero.mp hl
  · intro h
    rw [combine_eq_processPages names parse u files henum, h]
    rfl
  · intro hne hall
    rw [combine_eq_processPages names parse u files henum]
    have hsucc := successes_eq_nil files parse hall
    cases u with
    | false => rw [processPages_independent files parse hne, hsucc]; rfl
    | true => rw [processPages_uniform files parse hne, hsucc]; rfl

/-- Witness for C3 (amended) at a one-page directory whose page fails to
parse. -/
theorem C3_empty_and_allfail_witness :
    (([(1, "page_1.svg")] : List (Nat × String)) = [] ↔
      (["page_1.svg"].filter matchesGlob) = []) ∧
    (([(1, "page_1.svg")] : List (Nat × String)) = [] →
      combine_svgs_to_pdf ["page_1.svg"] noParse false = RunResult.fatal) ∧
    (([(1, "page_1.svg")] : List (Nat × String)) ≠ [] →
      (∀ f ∈ ([(1, "page_1.svg")] : List (Nat × String)), noParse f.2 = none) →
      combine_svgs_to_pdf ["page_1.svg"] noParse false = RunResult.output []) :=
  C3_empty_and_allfail ["page_1.svg"] noParse false [(1, "page_1.svg")] (by decide)

/-- C4: when the page files are in ascending index order and exactly one
of N ≥ 2 pages fails to parse, the in-process engine still writes an
output document; it has N−1 pages, their indices remain in ascending
order, and the whole result equals the run on the directory with the
failed page removed (failed pages influence nothing, in particular not
the uniform-mode maxima). -/
theorem C4_single_failure_dropped (files : List (Nat × String))
    (parse : String → Option Drawing) (u : Bool)
    (hsorted : (files.map Prod.fst).Sorted (· ≤ ·))
    (hlen : 2 ≤ files.length)
    (hfail : (files.filter fun f => (parse f.2).isNone).length = 1) :
    ∃ pages : List Page,
      processPages files parse u = RunResult.output pages ∧
      pages.length = files.length - 1 ∧
      (pages.map (fun pg => pg.index)).Sorted (· ≤ ·) ∧
      processPages files parse u
        = processPages (files.filter fun f => (parse f.2).isSome) parse u := by
  have hne : files ≠ [] := by
    intro h
    rw [h] at hlen
    exact absurd hlen (by decide)
  have hcount := length_filter_isSome_add files parse
  rw [hfail] at hcount
  have hsurv_len : (files.filter fun f => (parse f.2).isSome).length = files.length - 1 := by
    omega
  have hsurv_ne : (files.filter fun f => (parse f.2).isSome) ≠ [] := by
    intro h
    rw [h] at hsurv_len
    simp only [List.length_nil] at hsurv_len
    omega
  obtain ⟨pages, hout, hidx, hplen⟩ := processPages_output files parse u hne
  refine ⟨pages, hout, ?_, ?_, ?_⟩
  · rw [hplen, length_successes]
    exact hsurv_len
  · rw [hidx]
    exact List.Pairwise.sublist (successes_map_fst_sublist files parse) hsorted
  · obtain ⟨pages2, hout2, _, _⟩ :=
      processPages_output (files.filter fun f => (parse f.2).isSome) parse u hsurv_ne
    cases u with
    | false =>
      rw [processPages_independent files parse hne,
        processPages_independent _ parse hsurv_ne, successes_filter_isSome]
    | true =>
      rw [processPages_uniform files parse hne,
        processPages_uniform _ parse hsurv_ne, successes_filter_isSome]

/-- Witness for C4: two pages of which `page_2.svg` fails to parse. -/
theorem C4_single_failure_dropped_witness :
    ∃ pages : List Page,
      processPages [(1, "page_1.svg"), (2, "page_2.svg")] examplePartial false =
        RunResult.output pages ∧
      pages.length = ([(1, "page_1.svg"), (2, "page_2.svg")] : List (Nat × String)).length - 1 ∧
      (pages.map (fun pg => pg.index)).Sorted (· ≤ ·) ∧
      processPages [(1, "page_1.svg"), (2, "page_2.svg")] examplePartial false
        = processPages
            (([(1, "page_1.svg"), (2, "page_2.svg")] : List (Nat × String)).filter
              fun f => (examplePartial f.2).isSome)
            examplePartial false :=
  C4_single_failure_dropped [(1, "page_1.svg"), (2, "page_2.svg")] examplePartial false
    (by decide) (by decide) (by decide)

lemma inkscape_eq_body (names : List String) (convert : (Nat × String) → ConvResult)
    (pypdf2 u : Bool) (files : List (Nat × String))
    (henum : enumeratePages names = some files) :
    inkscape_combine_svgs_to_pdf names convert pypdf2 u =
      (if files.isEmpty then ExtResult.fatal
       else
        match convertAll files convert with
        | none => ExtResult.fatal
        | some pdf_files =>
          if pypdf2 then ExtResult.merged pdf_files
          else
            match pdf_files with
            | [] => ExtResult.noOutput
            | p :: _ => ExtResult.firstOnly p) := by
  unfold inkscape_combine_svgs_to_pdf
  rw [henum]

lemma convertAll_some (files : List (Nat × String)) (convert : (Nat × String) → ConvResult)
    (pdfs : List Nat) (h : convertAll files convert = some pdfs) :
    pdfs = files.map Prod.fst := by
  induction files generalizing pdfs with
  | nil =>
    rw [convertAll] at h
    simp only [Option.some.injEq] at h
    simp [← h]
  | cons f t ih =>
    rw [convertAll] at h
    cases hc : convert f with
    | ok =>
      rw [hc] at h
      cases ht : convertAll t convert with
      | none => rw [ht] at h; cases h
      | some l =>
        rw [ht] at h
        simp only [Option.map_some', Option.some.injEq] at h
        rw [← h, List.map_cons, ih l ht]
    | nonzeroExit => rw [hc] at h; cases h
    | timeout => rw [hc] at h; cases h
    | invokeError => rw [hc] at h; cases h

/-- C5: for the external-tool engine, if every page before some page `f`
converts successfully and `f`'s child process fails (non-zero exit,
timeout, or invocation exception), the whole run exits fatally with no
output; moreover the outcome is the same for every conversion oracle that
agrees up to and including `f`, i.e. no later page's conversion is ever
consulted and no merge is attempted. -/
theorem C5_strict_abort (names : List String) (convert : (Nat × String) → ConvResult)
    (pypdf2 u : Bool) (files pre post : List (Nat × String)) (f : Nat × String)
    (henum : enumeratePages names = some files)
    (hsplit : files = pre ++ f :: post)
    (hpre : ∀ g ∈ pre, convert g = ConvResult.ok)
    (hf : convert f ≠ ConvResult.ok) :
    inkscape_combine_svgs_to_pdf names convert pypdf2 u = ExtResult.fatal ∧
    ∀ convert2 : (Nat × String) → ConvResult,
      (∀ g ∈ pre, convert2 g = ConvResult.ok) → convert2 f = convert f →
      inkscape_combine_svgs_to_pdf names convert2 pypdf2 u = ExtResult.fatal := by
  have key : ∀ c : (Nat × String) → ConvResult, (∀ g ∈ pre, c g = ConvResult.ok) →
      c f ≠ ConvResult.ok →
      inkscape_combine_svgs_to_pdf names c pypdf2 u = ExtResult.fatal := by
    intro c hcpre hcf
    rw [inkscape_eq_body names c pypdf2 u files henum, hsplit,
      if_neg (by simp), convertAll_abort pre f post c hcpre hcf]
  refine ⟨key convert hpre hf, fun convert2 h2pre h2f => ?_⟩
  exact key convert2 h2pre (by rw [h2f]; exact hf)

/-- Witness for C5: two pages; `page_2.svg`'s conversion times out. -/
theorem C5_strict_abort_witness :
    inkscape_combine_svgs_to_pdf ["page_1.svg", "page_2.svg"]
      (fun f => if f.1 = 1 then ConvResult.ok else ConvResult.timeout) true false =
      ExtResult.fatal ∧
    ∀ convert2 : (Nat × String) → ConvResult,
      (∀ g ∈ ([(1, "page_1.svg")] : List (Nat × String)), convert2 g = ConvResult.ok) →
      convert2 (2, "page_2.svg") =
        (fun (f : Nat × String) => if f.1 = 1 then ConvResult.ok else ConvResult.timeout)
          (2, "page_2.svg") →
      inkscape_combine_svgs_to_pdf ["page_1.svg", "page_2.svg"] convert2 true false =
        ExtResult.fatal :=
  C5_strict_abort ["page_1.svg", "page_2.svg"]
    (fun f => if f.1 = 1 then ConvResult.ok else ConvResult.timeout) true false
    [(1, "page_1.svg"), (2, "page_2.svg")] [(1, "page_1.svg")] [] (2, "page_2.svg")
    (by decide) (by decide) (by decide) (by decide)

/-- C6: for the external-tool engine, if every per-page conversion
succeeds but PyPDF2 cannot be imported, the output written at the output
path is exactly the single converted page with the smallest numeric index
(with a logged warning); the run does not exit fatally. -/
theorem C6_merge_fallback (names : List String) (convert : (Nat × String) → ConvResult)
    (u : Bool) (files : List (Nat × String))
    (henum : enumeratePages names = some files) (hne : files ≠ [])
    (hok : ∀ f ∈ files, convert f = ConvResult.ok) :
    ∃ i : Nat,
      inkscape_combine_svgs_to_pdf names convert false u = ExtResult.firstOnly i ∧
      i ∈ files.map Prod.fst ∧
      (∀ k ∈ files.map Prod.fst, i ≤ k) ∧
      ExtResult.firstOnly i ≠ ExtResult.fatal := by
  obtain ⟨f0, t, rfl⟩ : ∃ f0 t, files = f0 :: t := by
    cases files with
    | nil => exact absurd rfl hne
    | cons f0 t => exact ⟨f0, t, rfl⟩
  rw [inkscape_eq_body names convert false u (f0 :: t) henum, if_neg (by simp),
    convertAll_ok (f0 :: t) convert hok]
  refine ⟨f0.1, rfl, by simp, ?_, by simp⟩
  have hs := enumeratePages_sorted names (f0 :: t) henum
  rw [List.map_cons, List.Sorted, List.pairwise_cons] at hs
  intro k hk
  rw [List.map_cons, List.mem_cons] at hk
  rcases hk with hk | hk
  · rw [hk]
  · exact hs.1 k hk

/-- Witness for C6: two pages, all conversions succeed, PyPDF2 missing. -/
theorem C6_merge_fallback_witness :
    ∃ i : Nat,
      inkscape_combine_svgs_to_pdf ["page_2.svg", "page_1.svg"] (fun _ => ConvResult.ok)
        false true = ExtResult.firstOnly i ∧
      i ∈ ([(1, "page_1.svg"), (2, "page_2.svg")] : List (Nat × String)).map Prod.fst ∧
      (∀ k ∈ ([(1, "page_1.svg"), (2, "page_2.svg")] : List (Nat × String)).map Prod.fst,
        i ≤ k) ∧
      ExtResult.firstOnly i ≠ ExtResult.fatal :=
  C6_merge_fallback ["page_2.svg", "page_1.svg"] (fun _ => ConvResult.ok) true
    [(1, "page_1.svg"), (2, "page_2.svg")] (by decide) (by decide) (by decide)

/-- C7: page files are enumerated by numeric index parsed from the
filename and processed in ascending index order (not lexical filename
order): the sorted enumeration, the in-process engine's emitted pages and
the external engine's converted-PDF sequence are all ascending in index. -/
theorem C7_ascending_order (names : List String) (files : List (Nat × String))
    (parse : String → Option Drawing) (u : Bool)
    (convert : (Nat × String) → ConvResult)
    (henum : enumeratePages names = some files) :
    (files.map Prod.fst).Sorted (· ≤ ·) ∧
    (∀ pages : List Page, combine_svgs_to_pdf names parse u = RunResult.output pages →
      (pages.map (fun pg => pg.index)).Sorted (· ≤ ·)) ∧
    (∀ pdfs : List Nat, convertAll files convert = some pdfs → pdfs.Sorted (· ≤ ·)) := by
  have hs := enumeratePages_sorted names files henum
  refine ⟨hs, ?_, ?_⟩
  · intro pages hp
    rw [combine_eq_processPages names parse u files henum] at hp
    by_cases hne : files = []
    · subst hne
      rw [processPages] at hp
      simp at hp
    · obtain ⟨pages2, hout, hidx, _⟩ := processPages_output files parse u hne
      rw [hout] at hp
      simp only [RunResult.output.injEq] at hp
      rw [← hp, hidx]
      exact List.Pairwise.sublist (successes_map_fst_sublist files parse) hs
  · intro pdfs hc
    rw [convertAll_some files convert pdfs hc]
    exact hs

/-- Witness for C7: indices with differing digit counts, where lexical
filename order (`page_10.svg` before `page_9.svg`) would be wrong. -/
theorem C7_ascending_order_witness :
    ((([(9, "page_9.svg"), (10, "page_10.svg")] : List (Nat × String))).map
      Prod.fst).Sorted (· ≤ ·) ∧
    (∀ pages : List Page,
      combine_svgs_to_pdf ["page_10.svg", "page_9.svg"] noParse false =
        RunResult.output pages →
      (pages.map (fun pg => pg.index)).Sorted (· ≤ ·)) ∧
    (∀ pdfs : List Nat,
      convertAll [(9, "page_9.svg"), (10, "page_10.svg")] (fun _ => ConvResult.ok) =
        some pdfs → pdfs.Sorted (· ≤ ·)) :=
  C7_ascending_order ["page_10.svg", "page_9.svg"] [(9, "page_9.svg"), (10, "page_10.svg")]
    noParse false (fun _ => ConvResult.ok) (by decide)

/-- C8 counterexample: the per-page child-process invocations are
identical under uniform and independent sizing modes — the invocation does
not depend on the requested mode. -/
theorem C8_counterexample :
    inkscape_page_cmds "inkscape" "/tmp" ["page_1.svg", "page_2.svg"] true =
      inkscape_page_cmds "inkscape" "/tmp" ["page_1.svg", "page_2.svg"] false ∧
    inkscape_page_cmds "inkscape" "/tmp" ["page_1.svg", "page_2.svg"] true =
      some [inkscape_cmd "inkscape" "page_1.svg" "/tmp/page_1.pdf",
            inkscape_cmd "inkscape" "page_2.svg" "/tmp/page_2.pdf"] :=
  ⟨rfl, by decide⟩

/-- C8 amended: the external-tool engine ignores the sizing option
entirely — its keyword options are unused, so both the sequence of
child-process command lines and the whole engine outcome are identical for
any two requested sizing modes; no sizing is applied after merging
either. -/
theorem C8_mode_ignored (inkscape_path temp_dir : String) (names : List String)
    (convert : (Nat × String) → ConvResult) (pypdf2 : Bool) (u1 u2 : Bool) :
    inkscape_page_cmds inkscape_path temp_dir names u1 =
      inkscape_page_cmds inkscape_path temp_dir names u2 ∧
    inkscape_combine_svgs_to_pdf names convert pypdf2 u1 =
      inkscape_combine_svgs_to_pdf names convert pypdf2 u2 :=
  ⟨rfl, rfl⟩

/-- C9: engine selection with `ForceOn` when the external tool is
unavailable returns the in-process engine; the selection function is total
(it never raises). -/
theorem C9_forceOn_fallback :
    select EnginePreference.forceOn false = Engine.inProcess := rfl

/-- C10: if the directory contains a file matching the glob `page_*.svg`
whose segment after the first underscore of the stem is not a decimal
integer, enumeration raises an unhandled exception while sorting, so both
engines crash before processing any page instead of skipping the file or
reporting the empty-directory fatal error. -/
theorem C10_nonnumeric_crash (names : List String) (name : String)
    (parse : String → Option Drawing) (u : Bool)
    (convert : (Nat × String) → ConvResult) (pypdf2 b : Bool)
    (hmem : name ∈ names) (hglob : matchesGlob name = true)
    (hkey : sortKey name = none) :
    enumeratePages names = none ∧
    combine_svgs_to_pdf names parse u = RunResult.exn ∧
    inkscape_combine_svgs_to_pdf names convert pypdf2 b = ExtResult.exn := by
  have hd : decorate (names.filter matchesGlob) = none :=
    decorate_none_of_mem _ name (List.mem_filter.mpr ⟨hmem, hglob⟩) hkey
  have he : enumeratePages names = none := by
    rw [enumeratePages, hd]
  refine ⟨he, ?_, ?_⟩
  · unfold combine_svgs_to_pdf
    rw [he]
  · unfold inkscape_combine_svgs_to_pdf
    rw [he]

/-- Witness for C10: a directory containing `page_final.svg`, which
matches the glob but has a non-numeric index segment. -/
theorem C10_nonnumeric_crash_witness :
    enumeratePages ["page_final.svg", "page_1.svg"] = none ∧
    combine_svgs_to_pdf ["page_final.svg", "page_1.svg"] noParse false = RunResult.exn ∧
    inkscape_combine_svgs_to_pdf ["page_final.svg", "page_1.svg"] (fun _ => ConvResult.ok)
      true false = ExtResult.exn :=
  C10_nonnumeric_crash ["page_final.svg", "page_1.svg"] "page_final.svg" noParse false
    (fun _ => ConvResult.ok) true false (by decide) (by decide) (by decide)

end IWB
